import Mathlib

/-!
Verification of the orchestration engine of the mavik chat-assistant
repository against its natural-language specification.

The backend orchestrator is documented, with verbatim code excerpts, in
`docs/ORCHESTRATION_EXPLAINED.md` (`backend/orchestrator/router.py`,
`backend/orchestrator/graph.py`, `backend/orchestrator/state.py`,
`backend/app.py`).  Those excerpts are embedded here directly.  The parts
of the backend that the excerpts do not show (the failure-handling policy
of the stage executor and the terminal `done` event of the progress
emitter) are modelled from the specification and marked as such in their
doc comments.  The client-side event consumer is embedded from
`frontend/components/chat-interface.tsx`.
-/

/-- Tool identifiers of the fixed tool registry, from
`classify_intent` in `backend/orchestrator/router.py` (excerpted in
`docs/ORCHESTRATION_EXPLAINED.md`): `"doc_parser"`, `"rag"`, `"web"`,
`"finance"`, `"report"`.  (The source spells the first one
`doc_parser`; it is renamed `docParser` here.) -/
inductive Tool
  | docParser
  | rag
  | web
  | finance
  | report
deriving DecidableEq, Repr, Fintype

/-- Intent categories, from `classify_intent`:
`"pre_screen" | "document_qa" | "research" | "calculation" | "question"`.
The spec's §3 data model names the last one `general`. -/
inductive Intent
  | pre_screen
  | document_qa
  | research
  | calculation
  | question
deriving DecidableEq, Repr, Fintype

/-- Whether the first character list starts the second one. -/
def leadsWith : List Char → List Char → Bool
  | [], _ => true
  | _ :: _, [] => false
  | p :: ps, c :: cs => p == c && leadsWith ps cs

/-- Python's substring containment `pat in s` on lists of characters:
true iff `pat` occurs contiguously inside `s`. -/
def containsSeq (s pat : List Char) : Bool :=
  match s with
  | [] => pat.isEmpty
  | _ :: tail => leadsWith pat s || containsSeq tail pat

/-- Python's `message.lower()`: the message as a list of characters,
each lowercased. -/
def lowerStr (s : String) : List Char :=
  s.toList.map Char.toLower

/-- Python's `keyword in message_lower` substring test: the keyword
against an already-lowercased character list. -/
def strContains (mLower : List Char) (pat : String) : Bool :=
  containsSeq mLower pat.toList

/-- The full-analysis phrase set of `classify_intent` CASE 1. -/
def fullAnalysisPhrases : List String :=
  ["pre-screen", "full analysis", "analyze this om"]

/-- The currency/timeliness phrase set of `classify_intent` CASE 3
(intent `research`). -/
def currencyPhrases : List String :=
  ["latest", "current"]

/-- The calculation phrase set of `classify_intent` CASE 4
(intent `calculation`). -/
def calcPhrases : List String :=
  ["calculate", "dscr", "ltv"]

/-- Python's `any(keyword in message_lower for keyword in phrases)`. -/
def matchesAny (phrases : List String) (messageLower : List Char) : Bool :=
  phrases.any (fun k => strContains messageLower k)

/-- Tool set selected for `pre_screen`:
`["doc_parser", "rag", "web", "finance", "report"]`. -/
def preScreenTools : List Tool :=
  [Tool.docParser, Tool.rag, Tool.web, Tool.finance, Tool.report]

/-- `classify_intent` from `backend/orchestrator/router.py`, excerpted in
`docs/ORCHESTRATION_EXPLAINED.md` lines 133-165.  The cascade, in source
order: CASE 1 document plus full-analysis phrase gives `pre_screen`;
CASE 2 document gives `document_qa`; CASE 3 a currency phrase gives
`research`; CASE 4 a calculation phrase gives `calculation`; CASE 5
otherwise `question`.  `hasDocument` stands for the truthiness of
`state.get('file_url')`. -/
def classify_intent (message : String) (hasDocument : Bool) : Intent × List Tool :=
  if hasDocument && matchesAny fullAnalysisPhrases (lowerStr message) then
    (Intent.pre_screen, preScreenTools)
  else if hasDocument then
    (Intent.document_qa, [Tool.docParser])
  else if matchesAny currencyPhrases (lowerStr message) then
    (Intent.research, [Tool.web])
  else if matchesAny calcPhrases (lowerStr message) then
    (Intent.calculation, [Tool.finance])
  else
    (Intent.question, [])

/-- The classifier can only return one of five concrete results. -/
theorem classify_cases (m : String) (d : Bool) :
    classify_intent m d = (Intent.pre_screen, preScreenTools) ∨
    classify_intent m d = (Intent.document_qa, [Tool.docParser]) ∨
    classify_intent m d = (Intent.research, [Tool.web]) ∨
    classify_intent m d = (Intent.calculation, [Tool.finance]) ∨
    classify_intent m d = (Intent.question, []) := by
  simp only [classify_intent]
  by_cases h1 : d = true <;>
    by_cases h2 : matchesAny fullAnalysisPhrases (lowerStr m) = true <;>
      by_cases h3 : matchesAny currencyPhrases (lowerStr m) = true <;>
        by_cases h4 : matchesAny calcPhrases (lowerStr m) = true <;>
          simp [h1, h2, h3, h4]

/-- `OrchestratorState` from `backend/orchestrator/state.py` (excerpted
in `docs/ORCHESTRATION_EXPLAINED.md` lines 392-415).  Optional fields of
the Python `TypedDict` that a node may leave unset are `Option`; opaque
payloads (extracted text, table rows, search hits, the calcs dict) are
kept as opaque `String` data. -/
structure OrchestratorState where
  user_message : String
  file_url : Option String
  session_id : String
  intent : Option Intent
  selected_tools : List Tool
  pdf_text : Option String
  pdf_tables : Option (List String)
  rag_results : List String
  web_results : List String
  finance_calcs : Option String
  answer : Option String
  docx_url : Option String
  tool_calls : List String
deriving DecidableEq, Repr

/-- The outputs the external tool services return on the happy path:
each node of `graph.py` awaits one remote call and stores its result.
The node functions below take these as parameters, since the services
themselves are outside the orchestrator. -/
structure ToolOutputs where
  pdfText : String
  pdfTables : List String
  ragResults : List String
  webResults : List String
  financeCalcs : String
  llmAnswer : String
  docxUrl : String
deriving Repr

/-- The `classify_intent` node: writes `intent` and `selected_tools`
(`state["intent"] = intent; state["selected_tools"] = selected_tools`). -/
def classify_node (s : OrchestratorState) : OrchestratorState :=
  { s with
    intent := some (classify_intent s.user_message s.file_url.isSome).1
    selected_tools := (classify_intent s.user_message s.file_url.isSome).2 }

/-- `extract_pdf` from `graph.py`: skips when no `file_url`, otherwise
writes `pdf_text` and `pdf_tables`. -/
def extract_pdf (o : ToolOutputs) (s : OrchestratorState) : OrchestratorState :=
  if s.file_url.isSome then
    { s with pdf_text := some o.pdfText, pdf_tables := some o.pdfTables }
  else
    s

/-- `search_rag` from `graph.py`: skips when `"rag"` is not in
`selected_tools`, otherwise writes `rag_results`. -/
def search_rag (o : ToolOutputs) (s : OrchestratorState) : OrchestratorState :=
  if Tool.rag ∈ s.selected_tools then
    { s with rag_results := o.ragResults }
  else
    s

/-- `search_web` from `graph.py`: skips when `"web"` is not in
`selected_tools`, otherwise writes `web_results`. -/
def search_web (o : ToolOutputs) (s : OrchestratorState) : OrchestratorState :=
  if Tool.web ∈ s.selected_tools then
    { s with web_results := o.webResults }
  else
    s

/-- `calculate_finance` from `graph.py`: skips when `"finance"` is not
in `selected_tools`, otherwise writes `finance_calcs`. -/
def calculate_finance (o : ToolOutputs) (s : OrchestratorState) : OrchestratorState :=
  if Tool.finance ∈ s.selected_tools then
    { s with finance_calcs := some o.financeCalcs }
  else
    s

/-- `generate_response` from `graph.py`: builds an intent-specific
prompt but in every branch writes exactly `answer`. -/
def generate_response (o : ToolOutputs) (s : OrchestratorState) : OrchestratorState :=
  { s with answer := some o.llmAnswer }

/-- `create_docx` from `graph.py`: skips unless the intent is
`pre_screen`, otherwise writes `docx_url`. -/
def create_docx (o : ToolOutputs) (s : OrchestratorState) : OrchestratorState :=
  if s.intent = some Intent.pre_screen then
    { s with docx_url := some o.docxUrl }
  else
    s

/-- The nodes of the LangGraph workflow, in the words of
`create_graph` (`workflow.add_node(...)`). -/
inductive Node
  | classify
  | extract
  | searchRag
  | searchWeb
  | calculate
  | generate
  | createDocx
deriving DecidableEq, Repr, Fintype

/-- Dispatch a node to its function. -/
def runNode (o : ToolOutputs) : Node → OrchestratorState → OrchestratorState
  | Node.classify => classify_node
  | Node.extract => extract_pdf o
  | Node.searchRag => search_rag o
  | Node.searchWeb => search_web o
  | Node.calculate => calculate_finance o
  | Node.generate => generate_response o
  | Node.createDocx => create_docx o

/-- The fixed edge chain of `create_graph` in `graph.py`:
`classify -> extract_pdf -> search_rag -> search_web -> calculate ->
generate -> create_docx -> END`.  Each node is its own stage; there is
no stage containing two tools. -/
def graphChain : List Node :=
  [Node.classify, Node.extract, Node.searchRag, Node.searchWeb,
   Node.calculate, Node.generate, Node.createDocx]

/-- The node in which the orchestrator runs each tool of the registry. -/
def nodeOfTool : Tool → Node
  | Tool.docParser => Node.extract
  | Tool.rag => Node.searchRag
  | Tool.web => Node.searchWeb
  | Tool.finance => Node.calculate
  | Tool.report => Node.createDocx

/-- The stage (position in the `create_graph` chain) of a tool. -/
def stageIdx (t : Tool) : Nat :=
  graphChain.indexOf (nodeOfTool t)

/-- The stage of the synthesis node `generate`. -/
def synthIdx : Nat :=
  graphChain.indexOf Node.generate

/-- The fields of `OrchestratorState`. -/
inductive StateField
  | user_message
  | file_url
  | session_id
  | intent
  | selected_tools
  | pdf_text
  | pdf_tables
  | rag_results
  | web_results
  | finance_calcs
  | answer
  | docx_url
  | tool_calls
deriving DecidableEq, Repr, Fintype

/-- Two states agree on a given field. -/
def fieldEq (fld : StateField) (s t : OrchestratorState) : Prop :=
  match fld with
  | StateField.user_message => s.user_message = t.user_message
  | StateField.file_url => s.file_url = t.file_url
  | StateField.session_id => s.session_id = t.session_id
  | StateField.intent => s.intent = t.intent
  | StateField.selected_tools => s.selected_tools = t.selected_tools
  | StateField.pdf_text => s.pdf_text = t.pdf_text
  | StateField.pdf_tables => s.pdf_tables = t.pdf_tables
  | StateField.rag_results => s.rag_results = t.rag_results
  | StateField.web_results => s.web_results = t.web_results
  | StateField.finance_calcs => s.finance_calcs = t.finance_calcs
  | StateField.answer => s.answer = t.answer
  | StateField.docx_url => s.docx_url = t.docx_url
  | StateField.tool_calls => s.tool_calls = t.tool_calls

instance (fld : StateField) (s t : OrchestratorState) : Decidable (fieldEq fld s t) := by
  cases fld <;> simp only [fieldEq] <;> infer_instance

/-- The state fields each node writes, read off the node bodies above. -/
def nodeWrites : Node → List StateField
  | Node.classify => [StateField.intent, StateField.selected_tools]
  | Node.extract => [StateField.pdf_text, StateField.pdf_tables]
  | Node.searchRag => [StateField.rag_results]
  | Node.searchWeb => [StateField.web_results]
  | Node.calculate => [StateField.finance_calcs]
  | Node.generate => [StateField.answer]
  | Node.createDocx => [StateField.docx_url]

/-- The fixed tool registry: the five tool identifiers the router can
select (`doc_parser`, `rag`, `web`, `finance`, `report`). -/
def toolRegistry : List Tool :=
  [Tool.docParser, Tool.rag, Tool.web, Tool.finance, Tool.report]

/-- A sample set of external tool outputs, used as a concrete input for
witness instantiations. -/
def sampleOutputs : ToolOutputs :=
  { pdfText := "pdf body", pdfTables := ["t1"], ragResults := ["hit"],
    webResults := ["result"], financeCalcs := "dscr 1.39x",
    llmAnswer := "the analysis", docxUrl := "https://s3/report.docx" }

/-- A concrete initial request state (message only, no document),
mirroring the `initial_state` dict built in `backend/app.py`. -/
def initialNoDocState : OrchestratorState :=
  { user_message := "What is DSCR?", file_url := none, session_id := "s1",
    intent := none, selected_tools := [], pdf_text := none,
    pdf_tables := none, rag_results := [], web_results := [],
    finance_calcs := none, answer := none, docx_url := none,
    tool_calls := [] }

/-- C3.  The claim states that a document-free message matching both the
calculation and the currency/timeliness phrase sets classifies as
`calculation` because the calculation rule would be evaluated first.
In `classify_intent` the order is the opposite: CASE 3 (research,
`latest`/`current`) is evaluated before CASE 4 (calculation), so such a
message classifies as `research` with tools `{web}`.  This counterexample
evaluates the classifier at a message in both phrase sets. -/
theorem C3_counterexample :
    matchesAny calcPhrases (lowerStr "calculate the latest dscr") = true ∧
    matchesAny currencyPhrases (lowerStr "calculate the latest dscr") = true ∧
    classify_intent "calculate the latest dscr" false ≠ (Intent.calculation, [Tool.finance]) ∧
    classify_intent "calculate the latest dscr" false = (Intent.research, [Tool.web]) := by
  decide

/-- C3 (amended).  The classifier evaluates its rules in fixed priority
order with first match winning, but the currency/timeliness rule comes
before the calculation rule: every document-free message matching both
the calculation phrase set and the currency/timeliness phrase set
classifies as `research` with tools `{web}`. -/
theorem C3_research_rule_precedes_calculation (m : String)
    (hcalc : matchesAny calcPhrases (lowerStr m) = true)
    (hcur : matchesAny currencyPhrases (lowerStr m) = true) :
    classify_intent m false = (Intent.research, [Tool.web]) := by
  simp [classify_intent, hcur]

/-- C3 witness: the amended theorem applied at the concrete message
`"calculate the latest dscr"`. -/
theorem C3_research_rule_precedes_calculation_witness :
    matchesAny calcPhrases (lowerStr "calculate the latest dscr") = true ∧
    matchesAny currencyPhrases (lowerStr "calculate the latest dscr") = true ∧
    classify_intent "calculate the latest dscr" false = (Intent.research, [Tool.web]) :=
  ⟨by decide, by decide,
   C3_research_rule_precedes_calculation "calculate the latest dscr" (by decide) (by decide)⟩

/-- C4.  `classify_intent` is a total function: for all
(message, has_document) pairs it returns an intent belonging to the
five-member enum and a required-tool list contained in the fixed tool
registry, and a document-free message matching none of the phrase sets
falls through to the final default intent (`question` in the source,
which the spec names `general`).  (With a document attached the earlier
`document_qa` rule fires before any phrase set is consulted, so the
fall-through concerns the no-document cascade.) -/
theorem C4_classifier_totality (m : String) (d : Bool) :
    (classify_intent m d).1 ∈
      [Intent.pre_screen, Intent.document_qa, Intent.research,
       Intent.calculation, Intent.question] ∧
    (classify_intent m d).2 ⊆ toolRegistry ∧
    (matchesAny currencyPhrases (lowerStr m) = false →
     matchesAny calcPhrases (lowerStr m) = false →
     classify_intent m false = (Intent.question, [])) := by
  refine ⟨?_, ?_, ?_⟩
  · rcases classify_cases m d with h | h | h | h | h <;> rw [h] <;> decide
  · rcases classify_cases m d with h | h | h | h | h <;> rw [h] <;> decide
  · intro h3 h4
    simp [classify_intent, h3, h4]

/-- C4 witness: totality instantiated at the unmatched message
`"hello there"` with no document. -/
theorem C4_classifier_totality_witness :
    matchesAny currencyPhrases (lowerStr "hello there") = false ∧
    matchesAny calcPhrases (lowerStr "hello there") = false ∧
    classify_intent "hello there" false = (Intent.question, []) :=
  ⟨by decide, by decide,
   (C4_classifier_totality "hello there" false).2.2 (by decide) (by decide)⟩

/-- C5.  The claim states that retrieval, web search and calculation are
placed in one and the same stage when all three are required.  In
`create_graph` the workflow is the fixed chain `classify -> extract_pdf
-> search_rag -> search_web -> calculate -> generate -> create_docx`, so
even for the `pre_screen` request (which requires all three) the rag and
web tools sit in different stages. -/
theorem C5_counterexample :
    Tool.rag ∈ (classify_intent "give me a full analysis" true).2 ∧
    Tool.web ∈ (classify_intent "give me a full analysis" true).2 ∧
    Tool.finance ∈ (classify_intent "give me a full analysis" true).2 ∧
    stageIdx Tool.rag ≠ stageIdx Tool.web := by
  decide

/-- C5 (amended).  In the plan fixed by `create_graph`, extraction sits
in a strictly earlier stage than retrieval, web search and calculation;
retrieval, web search and calculation occupy three consecutive distinct
stages (not one shared stage) even when all three are required; the
synthesis node `generate` comes after them, is compulsory (it writes an
answer for every state), and the artifact node `create_docx` - the one
node placed after synthesis - is conditional on the `pre_screen`
intent. -/
theorem C5_stage_ordering_amended :
    (stageIdx Tool.docParser < stageIdx Tool.rag ∧
     stageIdx Tool.docParser < stageIdx Tool.web ∧
     stageIdx Tool.docParser < stageIdx Tool.finance) ∧
    (stageIdx Tool.rag + 1 = stageIdx Tool.web ∧
     stageIdx Tool.web + 1 = stageIdx Tool.finance) ∧
    (stageIdx Tool.rag < synthIdx ∧ stageIdx Tool.web < synthIdx ∧
     stageIdx Tool.finance < synthIdx) ∧
    synthIdx < stageIdx Tool.report ∧
    (∀ (o : ToolOutputs) (s : OrchestratorState),
      (runNode o Node.generate s).answer = some o.llmAnswer) ∧
    (∀ (o : ToolOutputs) (s : OrchestratorState),
      s.intent ≠ some Intent.pre_screen → runNode o Node.createDocx s = s) := by
  refine ⟨by decide, by decide, by decide, by decide, ?_, ?_⟩
  · intro o s
    rfl
  · intro o s h
    simp [runNode, create_docx, h]

/-- C5 witness: the conditional-artifact conjunct applied at a concrete
state whose intent is not `pre_screen`. -/
theorem C5_stage_ordering_amended_witness :
    initialNoDocState.intent ≠ some Intent.pre_screen ∧
    runNode sampleOutputs Node.createDocx initialNoDocState = initialNoDocState :=
  ⟨by decide,
   C5_stage_ordering_amended.2.2.2.2.2 sampleOutputs initialNoDocState (by decide)⟩

/-- C8.  Single-writer invariant: each node of the workflow writes only
the `OrchestratorState` fields it owns (it leaves every field outside
its write set unchanged), and the write sets of distinct nodes are
pairwise disjoint, so no field is ever written by two different
stages within one run. -/
theorem C8_single_writer_invariant :
    (∀ (o : ToolOutputs) (n : Node) (s : OrchestratorState) (fld : StateField),
        fld ∉ nodeWrites n → fieldEq fld (runNode o n s) s) ∧
    (∀ (n₁ n₂ : Node) (fld : StateField),
        n₁ ≠ n₂ → ¬(fld ∈ nodeWrites n₁ ∧ fld ∈ nodeWrites n₂)) := by
  constructor
  · intro o n s fld h
    cases n <;> cases fld <;>
      simp_all [runNode, nodeWrites, fieldEq, classify_node, extract_pdf,
        search_rag, search_web, calculate_finance, generate_response, create_docx]
    all_goals (split <;> simp_all)
  · decide

/-- C8 witness: the classify node leaves the `answer` field of a
concrete state unchanged, and the `answer` field is not shared between
the classify and generate write sets. -/
theorem C8_single_writer_invariant_witness :
    (StateField.answer ∉ nodeWrites Node.classify) ∧
    fieldEq StateField.answer
      (runNode sampleOutputs Node.classify initialNoDocState) initialNoDocState ∧
    ¬(StateField.answer ∈ nodeWrites Node.classify ∧
      StateField.answer ∈ nodeWrites Node.generate) :=
  ⟨by decide,
   C8_single_writer_invariant.1 sampleOutputs Node.classify initialNoDocState
     StateField.answer (by decide),
   C8_single_writer_invariant.2 Node.classify Node.generate StateField.answer (by decide)⟩

/-- C9.  The claim (spec scenario 1) expects the message
`"What is DSCR?"` with no document to classify as the default intent
(`general`/`question`) with an empty tool set and to produce no tool
events.  Evaluating `classify_intent` at that input: the substring
`"dscr"` is in the CASE 4 calculation keyword list, so the code returns
intent `calculation` with tools `{finance}` - the finance tool runs and
a tool event is produced.  The repository documentation itself
(ORCHESTRATION_EXPLAINED.md, Example 3) expects the analogous
keyword-containing definitional question to classify as `question` with
no tools, so the code contradicts its own documentation here. -/
theorem C9_what_is_dscr_classified_as_calculation :
    classify_intent "What is DSCR?" false = (Intent.calculation, [Tool.finance]) ∧
    (classify_intent "What is DSCR?" false).1 ≠ Intent.question ∧
    (classify_intent "What is DSCR?" false).2 ≠ [] := by
  decide

/-- Per-tool status values of the client event protocol (spec §6). -/
inductive ToolStatus
  | started
  | succeeded
  | failed
deriving DecidableEq, Repr

/-- Client-visible stream events (spec §6; `data.type` values in the
frontend consumer and in the `backend/app.py` excerpt).  `sect` stands
for the `section` event (that word is reserved in Lean). -/
inductive Event
  | status (stage : String)
  | tool (t : Tool) (st : ToolStatus) (detail : String)
  | sect (index : Nat) (title content : String)
  | answer (content : String)
  | artifact (url : String)
  | done (error : Option String)
deriving DecidableEq, Repr

/-- Whether an event is the terminal `done` event. -/
def Event.isDone : Event → Bool
  | Event.done _ => true
  | _ => false

/-- Outcome of one external tool call (spec §4.3): success, tool-level
failure, or timeout. -/
inductive Outcome
  | ok (out : String)
  | err (reason : String)
  | timeout
deriving DecidableEq, Repr

/-- Whether an outcome is a success. -/
def Outcome.isOk : Outcome → Bool
  | Outcome.ok _ => true
  | _ => false

/-- The outcomes of the external services during one run: one outcome
per registry tool, plus the outcome of the language-model synthesis
call (which has no registry identifier). -/
structure Oracle where
  tool : Tool → Outcome
  synth : Outcome

/-- The execution plan fixed by `create_graph` (excerpted in
`docs/ORCHESTRATION_EXPLAINED.md` lines 95-118), restricted to the
required-tool set: the tool nodes run in the fixed chain order
`extract_pdf -> search_rag -> search_web -> calculate`, each tool in a
stage of its own - the chain contains no stage with two tools (see
`C5_counterexample`).  Synthesis and the artifact step are handled by
the executor below as the final compulsory stage and the conditional
stage after it. -/
def plan (required : List Tool) : List (List Tool) :=
  ([Tool.docParser, Tool.rag, Tool.web, Tool.finance].filter
    (fun t => t ∈ required)).map (fun t => [t])

/-- The completion event the executor records for one tool call:
`succeeded` on success, `failed` with the reason on failure, `failed`
with detail `"timeout"` on timeout (spec §4.3 and §5 treat timeout
exactly like failure). -/
def toolEvent (o : Oracle) (t : Tool) : Event :=
  match o.tool t with
  | Outcome.ok _ => Event.tool t ToolStatus.succeeded ""
  | Outcome.err r => Event.tool t ToolStatus.failed r
  | Outcome.timeout => Event.tool t ToolStatus.failed "timeout"

/-- Modelled from the spec: the Stage Executor of §4.3 records one
completion event per tool of a stage; a failure never removes the
sibling events. -/
def runStage (o : Oracle) (stage : List Tool) : List Event :=
  stage.map (toolEvent o)

/-- Modelled from the spec: the Artifact Step of §4.5 runs only for the
`pre_screen` intent after successful synthesis; on success it emits the
`artifact` event, on failure a failure event for the artifact tool
specifically, and in neither case a fatal error. -/
def artifactEvents (o : Oracle) (i : Intent) : List Event :=
  if i = Intent.pre_screen then
    match o.tool Tool.report with
    | Outcome.ok u => [Event.artifact u]
    | Outcome.err r => [Event.tool Tool.report ToolStatus.failed r]
    | Outcome.timeout => [Event.tool Tool.report ToolStatus.failed "timeout"]
  else []

/-- Result of one orchestration run: the emitted event stream, and
whether control reached the Synthesis Step. -/
structure RunResult where
  events : List Event
  reachedSynthesis : Bool
deriving Repr

/-- Modelled from the spec: the failure policy of the Stage Executor
(§4.3), the always-final Synthesis Step (§4.4), the conditional
Artifact Step (§4.5) and the terminal `done` event (§6) - none of
which appear in the code excerpts under `src/`.  The two fatal
conditions of §4.3: extraction failing when the intent is
`document_qa` halts the plan before synthesis; the Synthesis Step
failing ends the run with an error and no answer.  Every other tool
failure is recorded as a tool event and the plan continues. -/
def runPlan (o : Oracle) (i : Intent) (required : List Tool) : RunResult :=
  if i = Intent.document_qa ∧ Tool.docParser ∈ required ∧
      (o.tool Tool.docParser).isOk = false then
    { events := runStage o [Tool.docParser] ++
        [Event.done (some "ExtractionRequiredButFailed")],
      reachedSynthesis := false }
  else
    match o.synth with
    | Outcome.ok a =>
        { events := ((plan required).map (runStage o)).flatten ++
            [Event.answer a] ++ artifactEvents o i ++ [Event.done none],
          reachedSynthesis := true }
    | _ =>
        { events := ((plan required).map (runStage o)).flatten ++
            [Event.done (some "SynthesisFailure")],
          reachedSynthesis := true }

/-- One full run: classify, then execute the plan. -/
def runOrchestrator (o : Oracle) (message : String) (hasDocument : Bool) : RunResult :=
  runPlan o (classify_intent message hasDocument).1 (classify_intent message hasDocument).2

/-- The event emission of `backend/app.py` as excerpted in
`docs/ORCHESTRATION_EXPLAINED.md` lines 322-330: after the workflow
runs, an `answer` event is yielded iff `state["answer"]` is set and an
`artifact` event iff `state["docx_url"]` is set; no other event is
produced for the artifact step. -/
def streamEvents (s : OrchestratorState) : List Event :=
  (match s.answer with
   | some a => [Event.answer a]
   | none => []) ++
  (match s.docx_url with
   | some u => [Event.artifact u]
   | none => [])

/-- C6.  In the run observed in `tests/UAT_REPORT.md` Test Case A, a
`pre_screen` request produced the analysis text while the Word document
was not generated (`docx_url` never set).  Evaluating the `app.py`
emission at that state: the stream consists of the `answer` event
alone - no `artifact` event and no failure event of any kind is
emitted, so the artifact failure is silently swallowed, contradicting
the claim that a failure event for the artifact follows the answer. -/
theorem C6_artifact_failure_silently_swallowed :
    streamEvents
      { user_message := "Give me a full pre-screening analysis",
        file_url := some "s3://uploads/om.pdf", session_id := "uat-a",
        intent := some Intent.pre_screen, selected_tools := preScreenTools,
        pdf_text := some "27196 chars of extracted text",
        pdf_tables := some ["table"], rag_results := ["comparable"],
        web_results := ["sponsor news"], finance_calcs := some "DSCR 1.35x",
        answer := some "the pre-screening analysis",
        docx_url := none, tool_calls := [] }
      = [Event.answer "the pre-screening analysis"] := by
  decide

/-- Every event an executor stage records is a tool event for the tool
it belongs to. -/
theorem toolEvent_shape (o : Oracle) (t : Tool) :
    ∃ st r, toolEvent o t = Event.tool t st r := by
  cases htt : o.tool t with
  | ok out => exact ⟨ToolStatus.succeeded, "", by simp [toolEvent, htt]⟩
  | err r => exact ⟨ToolStatus.failed, r, by simp [toolEvent, htt]⟩
  | timeout => exact ⟨ToolStatus.failed, "timeout", by simp [toolEvent, htt]⟩

/-- A failing or timed-out tool call records a `failed` tool event. -/
theorem toolEvent_failed (o : Oracle) (t : Tool)
    (hfail : (o.tool t).isOk = false) :
    ∃ r, toolEvent o t = Event.tool t ToolStatus.failed r := by
  cases htt : o.tool t with
  | ok out => rw [htt] at hfail; simp [Outcome.isOk] at hfail
  | err r => exact ⟨r, by simp [toolEvent, htt]⟩
  | timeout => exact ⟨"timeout", by simp [toolEvent, htt]⟩

/-- Events of the tool stages are tool events of stage members. -/
theorem mem_stage_events_shape (o : Oracle) (stages : List (List Tool))
    (e : Event) (he : e ∈ (stages.map (runStage o)).flatten) :
    ∃ t st r, e = Event.tool t st r := by
  rcases List.mem_flatten.mp he with ⟨l, hl, hel⟩
  rcases List.mem_map.mp hl with ⟨stg, _, rfl⟩
  rcases List.mem_map.mp hel with ⟨t, _, rfl⟩
  exact ⟨t, (toolEvent_shape o t).choose,
    (toolEvent_shape o t).choose_spec.choose,
    (toolEvent_shape o t).choose_spec.choose_spec⟩

/-- Events of the artifact step are artifact events or tool events of
the report tool. -/
theorem mem_artifactEvents_shape (o : Oracle) (i : Intent) (e : Event)
    (he : e ∈ artifactEvents o i) :
    (∃ u, e = Event.artifact u) ∨
    ∃ st r, e = Event.tool Tool.report st r := by
  unfold artifactEvents at he
  split at he
  · split at he
    · left
      simp at he
      exact ⟨_, he⟩
    · right
      simp at he
      exact ⟨_, _, he⟩
    · right
      simp at he
      exact ⟨_, _, he⟩
  · simp at he

/-- Event stream of a non-fatal run with successful synthesis. -/
theorem runPlan_events_ok (o : Oracle) (i : Intent) (required : List Tool)
    (a : String) (hsyn : o.synth = Outcome.ok a)
    (hnf : ¬(i = Intent.document_qa ∧ Tool.docParser ∈ required ∧
      (o.tool Tool.docParser).isOk = false)) :
    (runPlan o i required).events =
      ((plan required).map (runStage o)).flatten ++ [Event.answer a] ++
        artifactEvents o i ++ [Event.done none] ∧
    (runPlan o i required).reachedSynthesis = true := by
  rw [runPlan, if_neg hnf, hsyn]
  exact ⟨rfl, rfl⟩

/-- Event stream of a non-fatal run whose synthesis call fails. -/
theorem runPlan_events_synthfail (o : Oracle) (i : Intent)
    (required : List Tool) (hsyn : o.synth.isOk = false)
    (hnf : ¬(i = Intent.document_qa ∧ Tool.docParser ∈ required ∧
      (o.tool Tool.docParser).isOk = false)) :
    (runPlan o i required).events =
      ((plan required).map (runStage o)).flatten ++
        [Event.done (some "SynthesisFailure")] ∧
    (runPlan o i required).reachedSynthesis = true := by
  cases hss : o.synth with
  | ok a => rw [hss] at hsyn; simp [Outcome.isOk] at hsyn
  | err r => rw [runPlan, if_neg hnf, hss]; exact ⟨rfl, rfl⟩
  | timeout => rw [runPlan, if_neg hnf, hss]; exact ⟨rfl, rfl⟩

/-- Event stream of the fatal document-qa extraction failure. -/
theorem runPlan_events_fatal (o : Oracle) (required : List Tool)
    (hdp : Tool.docParser ∈ required)
    (hfail : (o.tool Tool.docParser).isOk = false) :
    (runPlan o Intent.document_qa required).events =
      [toolEvent o Tool.docParser,
       Event.done (some "ExtractionRequiredButFailed")] ∧
    (runPlan o Intent.document_qa required).reachedSynthesis = false := by
  rw [runPlan, if_pos ⟨rfl, hdp, hfail⟩]
  exact ⟨rfl, rfl⟩

/-- No done event among the tool-stage events. -/
theorem done_not_mem_stage_events (o : Oracle) (stages : List (List Tool))
    (err : Option String) :
    Event.done err ∉ (stages.map (runStage o)).flatten := by
  intro he
  rcases mem_stage_events_shape o _ _ he with ⟨_, _, _, hh⟩
  exact Event.noConfusion hh

/-- No done event among the artifact-step events. -/
theorem done_not_mem_artifactEvents (o : Oracle) (i : Intent)
    (err : Option String) :
    Event.done err ∉ artifactEvents o i := by
  intro he
  rcases mem_artifactEvents_shape o _ _ he with ⟨_, hh⟩ | ⟨_, _, hh⟩ <;>
    exact Event.noConfusion hh

/-- Non-fatal runs: the run reaches synthesis, and a done event with an
error is present exactly when the synthesis call failed. -/
theorem runPlan_not_fatal (o : Oracle) (i : Intent) (required : List Tool)
    (hnf : ¬(i = Intent.document_qa ∧ Tool.docParser ∈ required ∧
      (o.tool Tool.docParser).isOk = false)) :
    (runPlan o i required).reachedSynthesis = true ∧
    ((∃ e, Event.done (some e) ∈ (runPlan o i required).events) ↔
      o.synth.isOk = false) := by
  cases hss : o.synth with
  | ok a =>
    obtain ⟨hev, hre⟩ := runPlan_events_ok o i required a hss hnf
    refine ⟨hre, ?_⟩
    constructor
    · rintro ⟨e, he⟩
      rw [hev] at he
      simp only [List.mem_append, List.mem_singleton] at he
      rcases he with ((hj | ha) | hart) | hd
      · exact absurd hj (done_not_mem_stage_events o _ _)
      · exact Event.noConfusion ha
      · exact absurd hart (done_not_mem_artifactEvents o _ _)
      · exact Option.noConfusion (Event.done.inj hd)
    · intro hko
      simp [Outcome.isOk] at hko
  | err r =>
    obtain ⟨hev, hre⟩ := runPlan_events_synthfail o i required
      (by rw [hss]; rfl) hnf
    refine ⟨hre, ?_⟩
    constructor
    · intro _
      rfl
    · intro _
      exact ⟨"SynthesisFailure", by rw [hev]; simp⟩
  | timeout =>
    obtain ⟨hev, hre⟩ := runPlan_events_synthfail o i required
      (by rw [hss]; rfl) hnf
    refine ⟨hre, ?_⟩
    constructor
    · intro _
      rfl
    · intro _
      exact ⟨"SynthesisFailure", by rw [hev]; simp⟩

/-- C2.  Fatal escalation: in every run classified `document_qa` whose
extraction tool fails, the run halts before synthesis, no `answer`
event is ever emitted, and the stream ends with a `done` event carrying
an error; moreover extraction failure under `document_qa` is the only
condition that halts the plan before synthesis, and a fatal `done`
error occurs exactly for that condition or for the Synthesis Step
itself failing. -/
theorem C2_document_qa_extraction_fatal (m : String) (d : Bool) (o : Oracle) :
    ((classify_intent m d).1 = Intent.document_qa →
      (o.tool Tool.docParser).isOk = false →
      (runOrchestrator o m d).reachedSynthesis = false ∧
      (∀ a, Event.answer a ∉ (runOrchestrator o m d).events) ∧
      (runOrchestrator o m d).events.getLast? =
        some (Event.done (some "ExtractionRequiredButFailed"))) ∧
    ((runOrchestrator o m d).reachedSynthesis = false ↔
      ((classify_intent m d).1 = Intent.document_qa ∧
        (o.tool Tool.docParser).isOk = false)) ∧
    ((∃ e, Event.done (some e) ∈ (runOrchestrator o m d).events) ↔
      (((classify_intent m d).1 = Intent.document_qa ∧
        (o.tool Tool.docParser).isOk = false) ∨ o.synth.isOk = false)) := by
  rcases classify_cases m d with h | h | h | h | h
  case _ =>
    -- pre_screen
    have h1 : (classify_intent m d).1 = Intent.pre_screen := by rw [h]
    have hoe : runOrchestrator o m d = runPlan o Intent.pre_screen preScreenTools := by
      rw [runOrchestrator, h]
    have hnf : ¬(Intent.pre_screen = Intent.document_qa ∧
        Tool.docParser ∈ preScreenTools ∧
        (o.tool Tool.docParser).isOk = false) := by
      simp
    obtain ⟨hre, hiff⟩ := runPlan_not_fatal o Intent.pre_screen preScreenTools hnf
    refine ⟨fun hq => by rw [h1] at hq; exact Intent.noConfusion hq, ?_, ?_⟩
    · rw [hoe, hre]
      simp [h1]
    · rw [hoe]
      rw [hiff]
      simp [h1]
  case _ =>
    -- document_qa
    have h1 : (classify_intent m d).1 = Intent.document_qa := by rw [h]
    have hoe : runOrchestrator o m d = runPlan o Intent.document_qa [Tool.docParser] := by
      rw [runOrchestrator, h]
    by_cases hdp : (o.tool Tool.docParser).isOk = false
    · obtain ⟨hev, hre⟩ := runPlan_events_fatal o [Tool.docParser] (by decide) hdp
      obtain ⟨s0, r0, hshape⟩ := toolEvent_shape o Tool.docParser
      refine ⟨fun _ _ => ⟨by rw [hoe, hre], ?_, ?_⟩, ?_, ?_⟩
      · intro a ha
        rw [hoe, hev] at ha
        simp only [List.mem_cons, List.not_mem_nil, or_false] at ha
        rcases ha with ha | ha
        · rw [hshape] at ha
          exact Event.noConfusion ha
        · exact Event.noConfusion ha
      · rw [hoe, hev]
        rfl
      · rw [hoe, hre]
        simp [h1, hdp]
      · rw [hoe, hev]
        constructor
        · intro _
          exact Or.inl ⟨h1, hdp⟩
        · intro _
          exact ⟨"ExtractionRequiredButFailed", by simp⟩
    · have hok : (o.tool Tool.docParser).isOk = true := by
        cases hcase : (o.tool Tool.docParser).isOk
        · exact absurd hcase hdp
        · rfl
      have hnf : ¬(Intent.document_qa = Intent.document_qa ∧
          Tool.docParser ∈ [Tool.docParser] ∧
          (o.tool Tool.docParser).isOk = false) := by
        simp [hok]
      obtain ⟨hre, hiff⟩ := runPlan_not_fatal o Intent.document_qa [Tool.docParser] hnf
      refine ⟨fun _ hf => absurd hf hdp, ?_, ?_⟩
      · rw [hoe, hre]
        simp [hok]
      · rw [hoe]
        rw [hiff]
        simp [hok]
  case _ =>
    -- research
    have h1 : (classify_intent m d).1 = Intent.research := by rw [h]
    have hoe : runOrchestrator o m d = runPlan o Intent.research [Tool.web] := by
      rw [runOrchestrator, h]
    have hnf : ¬(Intent.research = Intent.document_qa ∧
        Tool.docParser ∈ [Tool.web] ∧
        (o.tool Tool.docParser).isOk = false) := by
      simp
    obtain ⟨hre, hiff⟩ := runPlan_not_fatal o Intent.research [Tool.web] hnf
    refine ⟨fun hq => by rw [h1] at hq; exact Intent.noConfusion hq, ?_, ?_⟩
    · rw [hoe, hre]
      simp [h1]
    · rw [hoe]
      rw [hiff]
      simp [h1]
  case _ =>
    -- calculation
    have h1 : (classify_intent m d).1 = Intent.calculation := by rw [h]
    have hoe : runOrchestrator o m d = runPlan o Intent.calculation [Tool.finance] := by
      rw [runOrchestrator, h]
    have hnf : ¬(Intent.calculation = Intent.document_qa ∧
        Tool.docParser ∈ [Tool.finance] ∧
        (o.tool Tool.docParser).isOk = false) := by
      simp
    obtain ⟨hre, hiff⟩ := runPlan_not_fatal o Intent.calculation [Tool.finance] hnf
    refine ⟨fun hq => by rw [h1] at hq; exact Intent.noConfusion hq, ?_, ?_⟩
    · rw [hoe, hre]
      simp [h1]
    · rw [hoe]
      rw [hiff]
      simp [h1]
  case _ =>
    -- question
    have h1 : (classify_intent m d).1 = Intent.question := by rw [h]
    have hoe : runOrchestrator o m d = runPlan o Intent.question [] := by
      rw [runOrchestrator, h]
    have hnf : ¬(Intent.question = Intent.document_qa ∧
        Tool.docParser ∈ ([] : List Tool) ∧
        (o.tool Tool.docParser).isOk = false) := by
      simp
    obtain ⟨hre, hiff⟩ := runPlan_not_fatal o Intent.question [] hnf
    refine ⟨fun hq => by rw [h1] at hq; exact Intent.noConfusion hq, ?_, ?_⟩
    · rw [hoe, hre]
      simp [h1]
    · rw [hoe]
      rw [hiff]
      simp [h1]

/-- Tool-stage events contain no done event: filtering them for done
events yields nothing. -/
theorem filter_isDone_stage_events (o : Oracle) (stages : List (List Tool)) :
    ((stages.map (runStage o)).flatten.filter Event.isDone) = [] := by
  rw [List.filter_eq_nil_iff]
  intro e he
  rcases mem_stage_events_shape o _ _ he with ⟨_, _, _, rfl⟩
  simp [Event.isDone]

/-- Artifact-step events contain no done event. -/
theorem filter_isDone_artifactEvents (o : Oracle) (i : Intent) :
    ((artifactEvents o i).filter Event.isDone) = [] := by
  rw [List.filter_eq_nil_iff]
  intro e he
  rcases mem_artifactEvents_shape o _ _ he with ⟨_, rfl⟩ | ⟨_, _, rfl⟩ <;>
    simp [Event.isDone]

/-- Every run of the modelled executor emits exactly one done event,
as its last event, carrying an error exactly when the run failed
fatally. -/
theorem runPlan_done_once (o : Oracle) (i : Intent) (required : List Tool) :
    ((runPlan o i required).events.filter Event.isDone).length = 1 ∧
    ∃ err, (runPlan o i required).events.getLast? = some (Event.done err) ∧
      (err.isSome = true ↔
        ((i = Intent.document_qa ∧ Tool.docParser ∈ required ∧
          (o.tool Tool.docParser).isOk = false) ∨ o.synth.isOk = false)) := by
  by_cases hf : i = Intent.document_qa ∧ Tool.docParser ∈ required ∧
      (o.tool Tool.docParser).isOk = false
  · obtain ⟨hi, hdp, hfail⟩ := hf
    subst hi
    obtain ⟨hev, _⟩ := runPlan_events_fatal o required hdp hfail
    obtain ⟨s0, r0, hshape⟩ := toolEvent_shape o Tool.docParser
    refine ⟨?_, some "ExtractionRequiredButFailed", ?_, ?_⟩
    · rw [hev, hshape]
      simp [Event.isDone]
    · rw [hev]
      rfl
    · exact iff_of_true (by simp) (Or.inl ⟨rfl, hdp, hfail⟩)
  · cases hss : o.synth with
    | ok a =>
      obtain ⟨hev, _⟩ := runPlan_events_ok o i required a hss hf
      refine ⟨?_, none, ?_, ?_⟩
      · rw [hev]
        simp only [List.filter_append, filter_isDone_stage_events,
          filter_isDone_artifactEvents]
        simp [Event.isDone]
      · rw [hev]
        exact List.getLast?_concat _
      · refine iff_of_false (by simp) ?_
        rintro (⟨h1, h2, h3⟩ | hsf)
        · exact hf ⟨h1, h2, h3⟩
        · simp [Outcome.isOk] at hsf
    | err r =>
      obtain ⟨hev, _⟩ := runPlan_events_synthfail o i required (by rw [hss]; rfl) hf
      refine ⟨?_, some "SynthesisFailure", ?_, ?_⟩
      · rw [hev]
        simp only [List.filter_append, filter_isDone_stage_events]
        simp [Event.isDone]
      · rw [hev]
        exact List.getLast?_concat _
      · exact iff_of_true (by simp) (Or.inr (by simp [Outcome.isOk]))
    | timeout =>
      obtain ⟨hev, _⟩ := runPlan_events_synthfail o i required (by rw [hss]; rfl) hf
      refine ⟨?_, some "SynthesisFailure", ?_, ?_⟩
      · rw [hev]
        simp only [List.filter_append, filter_isDone_stage_events]
        simp [Event.isDone]
      · rw [hev]
        exact List.getLast?_concat _
      · exact iff_of_true (by simp) (Or.inr (by simp [Outcome.isOk]))

/-- C7.  Every run, successful or fatally failed, emits exactly one
`done` event; it is the last event of the stream; and it carries an
error exactly when the run failed fatally (extraction failure under
`document_qa`, or the synthesis call failing). -/
theorem C7_done_emitted_exactly_once_and_terminal
    (m : String) (d : Bool) (o : Oracle) :
    ((runOrchestrator o m d).events.filter Event.isDone).length = 1 ∧
    ∃ err, (runOrchestrator o m d).events.getLast? = some (Event.done err) ∧
      (err.isSome = true ↔
        (((classify_intent m d).1 = Intent.document_qa ∧
          (o.tool Tool.docParser).isOk = false) ∨ o.synth.isOk = false)) := by
  rcases classify_cases m d with h | h | h | h | h <;>
  · rw [show runOrchestrator o m d =
        runPlan o (classify_intent m d).1 (classify_intent m d).2 from rfl]
    obtain ⟨hcount, err, hlast, hiff⟩ :=
      runPlan_done_once o (classify_intent m d).1 (classify_intent m d).2
    refine ⟨hcount, err, hlast, ?_⟩
    rw [hiff, h]
    simp [h]

/-- An oracle for a run in which only the web-search tool fails while
every other service, synthesis included, succeeds. -/
def failingWebOracle : Oracle :=
  { tool := fun t =>
      match t with
      | Tool.web => Outcome.err "web search unavailable"
      | _ => Outcome.ok "data"
    synth := Outcome.ok "the analysis" }

/-- An oracle for a run in which the extraction tool fails while every
other service succeeds. -/
def failingExtractionOracle : Oracle :=
  { tool := fun t =>
      match t with
      | Tool.docParser => Outcome.err "textract error"
      | _ => Outcome.ok "data"
    synth := Outcome.ok "never reached" }

/-- C2 witness: a document-qa run with a concrete oracle whose
extraction call fails. -/
theorem C2_document_qa_extraction_fatal_witness :
    (classify_intent "what does the OM say" true).1 = Intent.document_qa ∧
    (failingExtractionOracle.tool Tool.docParser).isOk = false ∧
    (runOrchestrator failingExtractionOracle "what does the OM say" true).reachedSynthesis = false ∧
    (∀ a, Event.answer a ∉
      (runOrchestrator failingExtractionOracle "what does the OM say" true).events) ∧
    (runOrchestrator failingExtractionOracle "what does the OM say" true).events.getLast? =
      some (Event.done (some "ExtractionRequiredButFailed")) := by
  have hmain := (C2_document_qa_extraction_fatal "what does the OM say" true
    failingExtractionOracle).1 (by decide) (by decide)
  exact ⟨by decide, by decide, hmain.1, hmain.2.1, hmain.2.2⟩

/-- C7 witness: the done-event property at a concrete run. -/
theorem C7_done_emitted_exactly_once_and_terminal_witness :
    ((runOrchestrator failingWebOracle "give me a full analysis" true).events.filter
      Event.isDone).length = 1 ∧
    ∃ err, (runOrchestrator failingWebOracle "give me a full analysis" true).events.getLast? =
        some (Event.done err) ∧
      (err.isSome = true ↔
        (((classify_intent "give me a full analysis" true).1 = Intent.document_qa ∧
          (failingWebOracle.tool Tool.docParser).isOk = false) ∨
          failingWebOracle.synth.isOk = false)) :=
  C7_done_emitted_exactly_once_and_terminal "give me a full analysis" true failingWebOracle

/-- The typed events the frontend consumer distinguishes by `data.type`
in `handleSubmit` (`frontend/components/chat-interface.tsx`):
`tool` (with its status and summary), `section` (`sect` here),
`answer`, and `artifact`. -/
inductive ClientEvent
  | tool (name status summary : String)
  | sect (title content : String)
  | answer (content : String)
  | artifact (url : String)
deriving DecidableEq, Repr

/-- The accumulator of the frontend stream loop: the assistant message
being built, the accumulated `sections` array, and the download URL. -/
structure ConsumerState where
  assistantMessage : String
  sections : List (String × String)
  downloadUrl : Option String
deriving DecidableEq, Repr

/-- One iteration of the frontend event loop in `handleSubmit`
(`frontend/components/chat-interface.tsx` lines 85-97): a failed tool
event appends an inline warning to the assistant message, a section
event appends the section heading and content, an answer event
assigns `assistantMessage = data.content`, an artifact event sets the
download URL. -/
def processEvent (st : ConsumerState) (e : ClientEvent) : ConsumerState :=
  match e with
  | ClientEvent.tool name status summary =>
      if status = "failed" then
        { st with assistantMessage :=
            st.assistantMessage ++ "\n\n⚠️ **Tool Error (" ++ name ++ ")**: " ++
              summary ++ "\n" }
      else
        st
  | ClientEvent.sect title content =>
      { st with
        sections := st.sections ++ [(title, content)]
        assistantMessage :=
          st.assistantMessage ++ "\n\n## " ++ title ++ "\n\n" ++ content }
  | ClientEvent.answer content =>
      { st with assistantMessage := content }
  | ClientEvent.artifact url =>
      { st with downloadUrl := some url }

/-- The frontend consumer: fold the event loop over the stream,
starting from the empty assistant message. -/
def consume (events : List ClientEvent) : ConsumerState :=
  events.foldl processEvent
    { assistantMessage := "", sections := [], downloadUrl := none }

/-- C10.  In the client event consumer, an answer event replaces the
entire accumulated assistant message with exactly the answer content, a
section event appends to it, a failed tool event appends an inline
warning to it - so for any stream in which an answer event follows
section or failed-tool events, all earlier accumulated content
(sections and warnings alike) is discarded. -/
theorem C10_answer_event_replaces_accumulated_message :
    (∀ (st : ConsumerState) (content : String),
      (processEvent st (ClientEvent.answer content)).assistantMessage = content) ∧
    (∀ (st : ConsumerState) (title content : String),
      (processEvent st (ClientEvent.sect title content)).assistantMessage =
        st.assistantMessage ++ "\n\n## " ++ title ++ "\n\n" ++ content) ∧
    (∀ (st : ConsumerState) (name summary : String),
      (processEvent st (ClientEvent.tool name "failed" summary)).assistantMessage =
        st.assistantMessage ++ "\n\n⚠️ **Tool Error (" ++ name ++ ")**: " ++
          summary ++ "\n") ∧
    (∀ (pre : List ClientEvent) (content : String),
      (consume (pre ++ [ClientEvent.answer content])).assistantMessage = content) := by
  refine ⟨fun st content => rfl, fun st title content => rfl, ?_, ?_⟩
  · intro st name summary
    simp [processEvent]
  · intro pre content
    simp only [consume]
    rw [List.foldl_append]
    rfl
